import Mathlib

/-!
Shallow embedding of the motion-detector vision service
(src/src/motion_detector/motion_detector.py) and proofs about its
classification and detection pipeline.

Grayscale frames (the output of cv2.cvtColor(..., COLOR_BGR2GRAY)) are
modelled as row-major lists of rows of natural-number pixel values.
Floating-point parameters (sensitivity, min_box_size) are modelled as
rationals; the threshold computation math.floor((1 - sensitivity) * 255)
becomes Int.floor over ℚ.
-/

namespace MotionDetector

/-- A grayscale frame: rows (top to bottom) of 8-bit pixel values. -/
abbrev Frame := List (List Nat)

/-- Number of rows of a frame (numpy shape[0]). -/
def height (f : Frame) : Nat := f.length

/-- Number of columns of a frame (numpy shape[1], length of the first row). -/
def width (f : Frame) : Nat := (f.headD []).length

/-- A frame is rectangular: every row has the same length.  A numpy 2-D array
is rectangular by construction, so this is a wellformedness side condition of
the list-of-lists representation. -/
def rect (f : Frame) : Bool := f.all (fun r => r.length == width f)

/-- Pixel access at column x, row y, defaulting to 0 out of range. -/
def pixel (f : Frame) (x y : Nat) : Nat := (f.getD y []).getD x 0

/-- Models cv2.absdiff(a, b) at line 102/143.  For equally-sized buffers
OpenCV computes the per-pixel absolute difference.  When the sizes differ,
arithm_op first checks whether an operand is scalar-compatible — checkScalar
accepts exactly a 1×1 Mat for single-channel uint8 data (the first operand is
tested first, then the second) — and broadcasts that operand's single value
over the other buffer; only otherwise does it raise the unmatched-sizes
error, modelled as `none`. -/
def absdiff (a b : Frame) : Option Frame :=
  if height a = height b ∧ width a = width b ∧ rect a = true ∧ rect b = true then
    some (List.zipWith (fun r s => List.zipWith (fun (u v : Nat) => ((u : ℤ) - (v : ℤ)).natAbs) r s) a b)
  else if height a = 1 ∧ width a = 1 ∧ rect a = true ∧ rect b = true then
    some (b.map (fun r => r.map (fun (v : Nat) => ((pixel a 0 0 : ℤ) - (v : ℤ)).natAbs)))
  else if height b = 1 ∧ width b = 1 ∧ rect a = true ∧ rect b = true then
    some (a.map (fun r => r.map (fun (u : Nat) => ((u : ℤ) - (pixel b 0 0 : ℤ)).natAbs)))
  else none

/-- The threshold k = math.floor((1 - sensitivity) * 255) of lines 105/146. -/
def k_thresh (s : ℚ) : ℤ := Int.floor ((1 - s) * 255)

/-- The two threshold assignments of lines 106-107 (and 147-148):
diff[diff < k] = 0 and diff[diff > k] = hi (hi = 1 for classification,
hi = 255 for detection).  A pixel exactly equal to k is touched by neither
assignment and keeps its value. -/
def applyThreshold (k : ℤ) (hi : Nat) (f : Frame) : Frame :=
  f.map (fun r => r.map (fun (d : Nat) => if (d : ℤ) < k then 0 else if k < (d : ℤ) then hi else d))

/-- np.sum over a 2-D buffer (line 110). -/
def npsum (f : Frame) : Nat := (f.map (fun r => r.sum)).sum

/-- The dictionaries {"class_name": ..., "confidence": ...} returned at
line 112. -/
structure Classification where
  class_name : String
  confidence : ℚ
  deriving Repr, DecidableEq

/-- get_classifications (lines 88-113).  The `image` and `count` arguments of
the Python signature are taken but, exactly as in the source, never read.  The
two frames grabbed from self.camera (lines 96-99, already grayscaled) and the
configured self.sensitivity are passed explicitly.  The OpenCV
dimension-mismatch error raised by cv2.absdiff propagates as `none`. -/
def get_classifications {α : Type} (image : α) (count : Nat)
    (frame1 frame2 : Frame) (sensitivity : ℚ) : Option (List Classification) :=
  match absdiff frame2 frame1 with
  | none => none
  | some diff =>
      let k := k_thresh sensitivity
      let masked := applyThreshold k 1 diff
      let conf : ℚ := (npsum masked : ℚ) / ((width frame1 : ℚ) * (height frame1 : ℚ))
      some [⟨"motion", conf⟩]

/-- The detection dictionaries built at lines 169-170. -/
structure Detection where
  confidence : ℚ
  class_name : String
  x_min : ℤ
  y_min : ℤ
  x_max : ℤ
  y_max : ℤ
  deriving Repr, DecidableEq

/-- Python min over a nonempty list (default value for the impossible empty
case). -/
def minimumD (l : List ℤ) (d : ℤ) : ℤ :=
  match l with
  | [] => d
  | x :: xs => xs.foldl min x

/-- Python max over a nonempty list (default value for the impossible empty
case). -/
def maximumD (l : List ℤ) (d : ℤ) : ℤ :=
  match l with
  | [] => d
  | x :: xs => xs.foldl max x

/-- The body of the contour loop at lines 162-170: extract the coordinate
extremes of the contour points (pt[0][0] is x, pt[0][1] is y) and keep the
box only if (ymax - ymin) * (xmax - xmin) > min_box_size.  cv2.findContours
never returns an empty contour, on which Python min() would raise. -/
def detFromContour (min_box_size : ℚ) (c : List (ℤ × ℤ)) : Option Detection :=
  match c with
  | [] => none
  | p :: ps =>
      let xs := (p :: ps).map Prod.fst
      let ys := (p :: ps).map Prod.snd
      let xmin := minimumD xs 0
      let xmax := maximumD xs 0
      let ymin := minimumD ys 0
      let ymax := maximumD ys 0
      if min_box_size < (((ymax - ymin) * (xmax - xmin) : ℤ) : ℚ) then
        some { confidence := 1/2, class_name := "motion",
               x_min := xmin, y_min := ymin, x_max := xmax, y_max := ymax }
      else none

/-- The whole for-loop over contours at lines 162-171, appending one
detection per surviving box. -/
def detectionsFromContours (min_box_size : ℚ) (contours : List (List (ℤ × ℤ))) :
    List Detection :=
  contours.filterMap (detFromContour min_box_size)

/-- Padded pixel access for morphology: out-of-range coordinates read the
border value (OpenCV pads with +inf for erosion and -inf for dilation, which
clamp to 255 and 0 on uint8 data). -/
def getPixPad (f : Frame) (pad : Nat) (x y : ℤ) : Nat :=
  if 0 ≤ x ∧ x < (width f : ℤ) ∧ 0 ≤ y ∧ y < (height f : ℤ) then
    pixel f x.toNat y.toNat
  else pad

/-- The (2r+1)×(2r+1) window of padded pixel values centred at (x, y),
matching a np.ones((2r+1, 2r+1)) structuring element with its default
central anchor. -/
def window (f : Frame) (pad : Nat) (r : Nat) (x y : Nat) : List Nat :=
  (List.range (2 * r + 1)).flatMap (fun (i : Nat) =>
    (List.range (2 * r + 1)).map (fun (j : Nat) =>
      getPixPad f pad ((x : ℤ) + (j : ℤ) - (r : ℤ)) ((y : ℤ) + (i : ℤ) - (r : ℤ))))

/-- Minimum of a nonempty pixel window (default for the impossible empty
case). -/
def winMin (l : List Nat) : Nat :=
  match l with
  | [] => 255
  | x :: xs => xs.foldl min x

/-- Maximum of a nonempty pixel window (default for the impossible empty
case). -/
def winMax (l : List Nat) : Nat :=
  match l with
  | [] => 0
  | x :: xs => xs.foldl max x

/-- cv2.erode with a np.ones((2r+1, 2r+1)) kernel: each output pixel is the
minimum of its padded window (border value 255 on uint8). -/
def erode (r : Nat) (f : Frame) : Frame :=
  (List.range (height f)).map (fun y =>
    (List.range (width f)).map (fun x => winMin (window f 255 r x y)))

/-- cv2.dilate with a np.ones((2r+1, 2r+1)) kernel: each output pixel is the
maximum of its padded window (border value 0 on uint8). -/
def dilate (r : Nat) (f : Frame) : Frame :=
  (List.range (height f)).map (fun y =>
    (List.range (width f)).map (fun x => winMax (window f 0 r x y)))

/-- The 8-neighbourhood of a grid point (negative coordinates dropped; the
upper bounds are checked at the use site). -/
def nbrs (p : Nat × Nat) : List (Nat × Nat) :=
  ([-1, 0, 1] : List ℤ).flatMap (fun dy =>
    ([-1, 0, 1] : List ℤ).flatMap (fun dx =>
      if dx = 0 ∧ dy = 0 then []
      else
        let nx := (p.1 : ℤ) + dx
        let ny := (p.2 : ℤ) + dy
        if 0 ≤ nx ∧ 0 ≤ ny then [(nx.toNat, ny.toNat)] else []))

/-- Fuelled breadth-first traversal collecting the 8-connected component of
nonzero pixels reachable from the queue. -/
def bfs (f : Frame) : Nat → List (Nat × Nat) → List (Nat × Nat) → List (Nat × Nat)
  | 0, visited, _ => visited
  | _ + 1, visited, [] => visited
  | fuel + 1, visited, p :: queue =>
      if p ∈ visited then bfs f fuel visited queue
      else if pixel f p.1 p.2 = 0 then bfs f fuel visited queue
      else
        bfs f fuel (visited ++ [p])
          (queue ++ (nbrs p).filter
            (fun q => decide (q.1 < width f ∧ q.2 < height f)))

/-- All grid coordinates of a frame in raster order. -/
def coords (f : Frame) : List (Nat × Nat) :=
  ((List.range (height f)).map (fun y =>
    (List.range (width f)).map (fun x => (x, y)))).flatten

/-- Models cv2.findContours(imgOut, RETR_EXTERNAL, CHAIN_APPROX_NONE) at
line 159: one point list per 8-connected component of nonzero pixels.  The
model returns every point of a component rather than only its outer boundary;
the coordinate extremes, which are all the downstream loop uses, coincide
with those of the outer contour. -/
def findContours (f : Frame) : List (List (Nat × Nat)) :=
  ((coords f).foldl
    (fun acc p =>
      if pixel f p.1 p.2 = 0 then acc
      else if p ∈ acc.2 then acc
      else
        let comp := bfs f (9 * (height f * width f) + 9) [] [p]
        (acc.1 ++ [comp], acc.2 ++ comp))
    ([], [])).1

/-- get_detections (lines 129-172): difference, 0/255 threshold, 3×3
erode/dilate then 15×15 dilate/erode, contour extraction, and the box filter.
The `image` argument is taken but, exactly as in the source, never read. -/
def get_detections {α : Type} (image : α) (frame1 frame2 : Frame)
    (sensitivity : ℚ) (min_box_size : ℚ) : Option (List Detection) :=
  match absdiff frame2 frame1 with
  | none => none
  | some diff =>
      let k := k_thresh sensitivity
      let masked := applyThreshold k 255 diff
      let img := erode 1 masked
      let img2 := dilate 1 img
      let img3 := dilate 7 img2
      let imgOut := erode 7 img3
      let contours := (findContours imgOut).map
        (fun c => c.map (fun (q : Nat × Nat) => ((q.1 : ℤ), (q.2 : ℤ))))
      some (detectionsFromContours min_box_size contours)

/-- The attributes read from a ServiceConfig (cam_name.string_value,
min_box_size.number_value, sensitivity.number_value). -/
structure ServiceConfig where
  cam_name : String
  min_box_size : ℚ
  sensitivity : ℚ
  deriving Repr, DecidableEq

/-- validate_config (lines 54-65): reject a negative minimum box size, then a
sensitivity outside [0, 1]; otherwise return the source camera dependency. -/
def validate_config (config : ServiceConfig) : Except String (List String) :=
  if config.min_box_size < 0 then
    Except.error "Minimum bounding box size should be a positive integer"
  else if config.sensitivity < 0 ∨ 1 < config.sensitivity then
    Except.error "Sensitivity should be a number between 0 and 1"
  else Except.ok [config.cam_name]

/-- The attribute state stored on the service by reconfigure. -/
structure DetectorState where
  cam_name : String
  sensitivity : ℚ
  min_box_size : ℚ
  deriving Repr, DecidableEq

/-- reconfigure (lines 69-78): store cam_name and min_box_size as given, and
replace a sensitivity of exactly 0 with 0.9 (lines 76-77). -/
def reconfigure (config : ServiceConfig) : DetectorState :=
  { cam_name := config.cam_name
  , sensitivity := if config.sensitivity = 0 then 9/10 else config.sensitivity
  , min_box_size := config.min_box_size }

/-! ### Helper lemmas -/

lemma zipWith_self {α β : Type} (g : α → α → β) (l : List α) :
    List.zipWith g l l = l.map (fun a => g a a) := by
  induction l with
  | nil => rfl
  | cons a t ih => simp [ih]

/-- Every pixel of a frame is zero. -/
def allZero (f : Frame) : Prop := ∀ r ∈ f, ∀ d ∈ r, d = 0

lemma getD_eq_zero {l : List Nat} (h : ∀ d ∈ l, d = 0) (n : Nat) : l.getD n 0 = 0 := by
  induction l generalizing n with
  | nil => simp
  | cons a t ih =>
      cases n with
      | zero => simpa using h a (by simp)
      | succ m => simpa using ih (fun d hd => h d (by simp [hd])) m

lemma row_allZero {f : Frame} (h : allZero f) (y : Nat) : ∀ d ∈ f.getD y [], d = 0 := by
  induction f generalizing y with
  | nil => simp
  | cons r t ih =>
      cases y with
      | zero => simpa using h r (by simp)
      | succ m => simpa using ih (fun r hr => h r (by simp [hr])) m

lemma pixel_allZero {f : Frame} (h : allZero f) (x y : Nat) : pixel f x y = 0 :=
  getD_eq_zero (row_allZero h y) x

lemma absdiff_self (f : Frame) (hf : rect f = true) :
    ∃ z, absdiff f f = some z ∧ allZero z := by
  refine ⟨List.zipWith
      (fun r s => List.zipWith (fun (u v : Nat) => ((u : ℤ) - (v : ℤ)).natAbs) r s) f f, ?_, ?_⟩
  · unfold absdiff
    rw [if_pos ⟨rfl, rfl, hf, hf⟩]
  · rw [zipWith_self]
    intro r hr d hd
    rcases List.mem_map.1 hr with ⟨r0, _, rfl⟩
    rw [zipWith_self] at hd
    rcases List.mem_map.1 hd with ⟨u, _, rfl⟩
    simp

lemma applyThreshold_allZero {z : Frame} (k : ℤ) (hi : Nat) (hk : 0 ≤ k) (h : allZero z) :
    allZero (applyThreshold k hi z) := by
  intro r hr d hd
  unfold applyThreshold at hr
  rcases List.mem_map.1 hr with ⟨r0, hr0, rfl⟩
  rcases List.mem_map.1 hd with ⟨d0, hd0, rfl⟩
  have hd0z : d0 = 0 := h r0 hr0 d0 hd0
  subst hd0z
  rcases lt_or_eq_of_le hk with hk1 | hk1
  · simp [hk1, not_lt_of_gt hk1]
  · simp [← hk1]

lemma npsum_allZero {z : Frame} (h : allZero z) : npsum z = 0 := by
  unfold npsum
  rw [List.sum_eq_zero]
  intro s hs
  rcases List.mem_map.1 hs with ⟨r, hr, rfl⟩
  exact List.sum_eq_zero (h r hr)

lemma k_thresh_nonneg {s : ℚ} (hs1 : s ≤ 1) : 0 ≤ k_thresh s := by
  unfold k_thresh
  refine Int.le_floor.2 ?_
  push_cast
  nlinarith

/-! ### C1, C2, C3: the thresholding slip at pixels exactly equal to k -/

lemma k_thresh_nine_tenths : k_thresh (9/10) = 25 := by
  unfold k_thresh
  rw [show ((1 - 9/10 : ℚ) * 255) = 51/2 by norm_num]
  rw [Int.floor_eq_iff]
  norm_num

lemma k_thresh_113_125 : k_thresh (113/125) = 24 := by
  unfold k_thresh
  rw [show ((1 - 113/125 : ℚ) * 255) = 612/25 by norm_num]
  rw [Int.floor_eq_iff]
  norm_num

lemma classify_0_25_at_0_9 :
    get_classifications () 1 [[0]] [[25]] (9/10) = some [⟨"motion", 25⟩] := by
  unfold get_classifications
  rw [(by decide : absdiff [[25]] [[0]] = some [[25]])]
  simp only [k_thresh_nine_tenths]
  norm_num [applyThreshold, npsum, width, height]

lemma classify_0_25_at_113_125 :
    get_classifications () 1 [[0]] [[25]] (113/125) = some [⟨"motion", 1⟩] := by
  unfold get_classifications
  rw [(by decide : absdiff [[25]] [[0]] = some [[25]])]
  simp only [k_thresh_113_125]
  norm_num [applyThreshold, npsum, width, height]

/-- C1: the claim that the thresholded buffer of get_classifications is a
{0,1} mask with pixel = 1 iff difference ≥ k fails on the code.  At
sensitivity 0.9 the threshold is k = 25, and a pixel whose absolute
difference is exactly 25 (hence ≥ k) is touched by neither assignment
diff[diff < k] = 0 nor diff[diff > k] = 1 and keeps the value 25, which is
neither of the two mask values; the confidence returned for the 1×1 frame
pair [[0]], [[25]] is accordingly 25, not a pixel fraction. -/
theorem C1_threshold_at_k_not_binary :
    k_thresh (9/10) = 25 ∧
    k_thresh (9/10) ≤ (25 : ℤ) ∧
    applyThreshold (k_thresh (9/10)) 1 [[25]] = [[25]] ∧
    applyThreshold (k_thresh (9/10)) 1 [[25]] ≠ [[1]] ∧
    applyThreshold (k_thresh (9/10)) 1 [[25]] ≠ [[0]] ∧
    get_classifications () 1 [[0]] [[25]] (9/10) = some [⟨"motion", 25⟩] := by
  refine ⟨k_thresh_nine_tenths, le_of_eq k_thresh_nine_tenths, ?_, ?_, ?_,
    classify_0_25_at_0_9⟩ <;> rw [k_thresh_nine_tenths] <;> decide

/-- C2: the claim that the confidence returned by get_classifications always
lies in [0, 1] fails on the code.  For the equally-sized 1×1 grayscale frames
[[0]] and [[25]] and sensitivity 0.9 ∈ [0, 1], the pixel difference equals
the threshold k = 25, is left unmodified, and the returned confidence is
25 > 1. -/
theorem C2_confidence_exceeds_one :
    (0 : ℚ) ≤ 9/10 ∧ (9/10 : ℚ) ≤ 1 ∧
    get_classifications () 1 [[0]] [[25]] (9/10) = some [⟨"motion", 25⟩] ∧
    ¬ ((25 : ℚ) ≤ 1) :=
  ⟨by norm_num, by norm_num, classify_0_25_at_0_9, by norm_num⟩

/-- C3: the claim that the confidence is monotone non-decreasing in the
sensitivity fails on the code.  For the fixed frame pair [[0]], [[25]], the
sensitivities 0.9 ≤ 0.904 (both in [0, 1]) give thresholds k = 25 and k = 24;
at k = 25 the difference pixel equals k, stays at 25 and yields confidence
25, while at k = 24 it is set to 1 and yields confidence 1 < 25. -/
theorem C3_confidence_not_monotone :
    (0 : ℚ) ≤ 9/10 ∧ (9/10 : ℚ) ≤ 113/125 ∧ (113/125 : ℚ) ≤ 1 ∧
    get_classifications () 1 [[0]] [[25]] (9/10) = some [⟨"motion", 25⟩] ∧
    get_classifications () 1 [[0]] [[25]] (113/125) = some [⟨"motion", 1⟩] ∧
    ¬ ((25 : ℚ) ≤ 1) :=
  ⟨by norm_num, by norm_num, by norm_num, classify_0_25_at_0_9,
   classify_0_25_at_113_125, by norm_num⟩

/-! ### C5: dimension mismatch -/

lemma k_thresh_half : k_thresh (1/2) = 127 := by
  unfold k_thresh
  rw [show ((1 - 1/2 : ℚ) * 255) = 255/2 by norm_num]
  rw [Int.floor_eq_iff]
  norm_num

set_option maxRecDepth 20000 in
/-- C5 counterexample: the claim fails when one of the mismatched frames is
1×1.  With frame1 = [[0]] (1×1) and frame2 = [[0], [0]] (2×1) the heights
differ, yet cv2.absdiff treats the 1×1 operand as a scalar and broadcasts it
instead of raising, so get_classifications returns confidence 0.0 and
get_detections returns the empty list: both operations produce a result. -/
theorem C5_scalar_broadcast_counterexample :
    height ([[0]] : Frame) ≠ height ([[0], [0]] : Frame) ∧
    get_classifications () 1 [[0]] [[0], [0]] (1/2) = some [⟨"motion", 0⟩] ∧
    get_detections () [[0]] [[0], [0]] (1/2) 0 = some [] := by
  refine ⟨by decide, ?_, ?_⟩
  · unfold get_classifications
    rw [(by decide : absdiff [[0], [0]] [[0]] = some [[0], [0]])]
    simp only [k_thresh_half]
    norm_num [applyThreshold, npsum, width, height]
  · unfold get_detections
    rw [(by decide : absdiff [[0], [0]] [[0]] = some [[0], [0]])]
    simp only [k_thresh_half]
    rw [(by decide : (findContours (erode 7 (dilate 7 (dilate 1 (erode 1
        (applyThreshold 127 255 [[0], [0]])))))).map
        (fun c => c.map (fun (q : Nat × Nat) => ((q.1 : ℤ), (q.2 : ℤ)))) = [])]
    rfl

/-- C5 (amended): if the two captured frames differ in width or height and
neither frame is 1×1 (a 1×1 Mat is scalar-compatible, and OpenCV broadcasts
it rather than raising), cv2.absdiff raises the unmatched-sizes error
(modelled as `none`) and both get_classifications and get_detections surface
it to the caller without producing a result; this covers the claim's example
sizes 10×10 vs 10×20. -/
theorem C5_dimension_mismatch (f1 f2 : Frame) (count : Nat) (s mbs : ℚ)
    (h : width f1 ≠ width f2 ∨ height f1 ≠ height f2)
    (h1 : ¬ (height f1 = 1 ∧ width f1 = 1))
    (h2 : ¬ (height f2 = 1 ∧ width f2 = 1)) :
    get_classifications () count f1 f2 s = none ∧
    get_detections () f1 f2 s mbs = none := by
  have habs : absdiff f2 f1 = none := by
    have hc1 : ¬ (height f2 = height f1 ∧ width f2 = width f1 ∧
        rect f2 = true ∧ rect f1 = true) := by
      rintro ⟨hh, hw, -, -⟩
      rcases h with h | h
      · exact h hw.symm
      · exact h hh.symm
    have hc2 : ¬ (height f2 = 1 ∧ width f2 = 1 ∧ rect f2 = true ∧ rect f1 = true) := by
      rintro ⟨hh, hw, -, -⟩
      exact h2 ⟨hh, hw⟩
    have hc3 : ¬ (height f1 = 1 ∧ width f1 = 1 ∧ rect f2 = true ∧ rect f1 = true) := by
      rintro ⟨hh, hw, -, -⟩
      exact h1 ⟨hh, hw⟩
    unfold absdiff
    rw [if_neg hc1, if_neg hc2, if_neg hc3]
  constructor
  · unfold get_classifications
    rw [habs]
  · unfold get_detections
    rw [habs]

/-- Witness for C5 at the claim's example: a 10×10 frame against a 10×20
frame (neither scalar-compatible). -/
theorem C5_dimension_mismatch_witness :
    get_classifications () 1 (List.replicate 10 (List.replicate 10 0))
      (List.replicate 20 (List.replicate 10 0)) (1/2) = none ∧
    get_detections () (List.replicate 10 (List.replicate 10 0))
      (List.replicate 20 (List.replicate 10 0)) (1/2) 0 = none :=
  C5_dimension_mismatch (List.replicate 10 (List.replicate 10 0))
    (List.replicate 20 (List.replicate 10 0)) 1 (1/2) 0
    (Or.inr (by decide)) (by decide) (by decide)

/-! ### C7: configuration validation -/

/-- C7: validate_config rejects any configuration whose sensitivity lies
outside [0, 1] or whose minimum box size is negative, raising before any
computation is attempted. -/
theorem C7_validate_config_rejects (config : ServiceConfig)
    (h : config.sensitivity < 0 ∨ 1 < config.sensitivity ∨ config.min_box_size < 0) :
    ∃ msg, validate_config config = Except.error msg := by
  unfold validate_config
  by_cases hm : config.min_box_size < 0
  · rw [if_pos hm]
    exact ⟨_, rfl⟩
  · rw [if_neg hm, if_pos]
    · exact ⟨_, rfl⟩
    · rcases h with h1 | h2 | h3
      · exact Or.inl h1
      · exact Or.inr h2
      · exact absurd h3 hm

/-- Witness for C7 at sensitivity 2. -/
theorem C7_validate_config_rejects_witness :
    ∃ msg, validate_config ⟨"cam", 0, 2⟩ = Except.error msg :=
  C7_validate_config_rejects ⟨"cam", 0, 2⟩ (Or.inr (Or.inl (show (1 : ℚ) < 2 by norm_num)))

/-! ### C8: reconfigure rewrites sensitivity 0 -/

/-- C8: reconfigure silently replaces a configured sensitivity of exactly 0
with 0.9; every other sensitivity value (and cam_name and min_box_size) is
stored unchanged. -/
theorem C8_reconfigure_zero_sensitivity (config : ServiceConfig) :
    (config.sensitivity = 0 → (reconfigure config).sensitivity = 9/10) ∧
    (config.sensitivity ≠ 0 → (reconfigure config).sensitivity = config.sensitivity) ∧
    (reconfigure config).cam_name = config.cam_name ∧
    (reconfigure config).min_box_size = config.min_box_size := by
  refine ⟨fun h => ?_, fun h => ?_, rfl, rfl⟩
  · simp [reconfigure, h]
  · simp [reconfigure, h]

/-- Witness for C8 at sensitivities 0 and 1/2. -/
theorem C8_reconfigure_zero_sensitivity_witness :
    (reconfigure ⟨"cam", 5, 0⟩).sensitivity = 9/10 ∧
    (reconfigure ⟨"cam", 5, 1/2⟩).sensitivity = 1/2 :=
  ⟨(C8_reconfigure_zero_sensitivity ⟨"cam", 5, 0⟩).1 rfl,
   (C8_reconfigure_zero_sensitivity ⟨"cam", 5, 1/2⟩).2.1 (show (1/2 : ℚ) ≠ 0 by norm_num)⟩

/-! ### C9: the image and count arguments are ignored -/

/-- C9: get_classifications and get_detections never read their image (and
count) arguments: for any two values of these arguments and the same pair of
captured camera frames and configured parameters, the results are
identical. -/
theorem C9_image_count_ignored {α β : Type} (image1 : α) (image2 : β)
    (count1 count2 : Nat) (f1 f2 : Frame) (s mbs : ℚ) :
    get_classifications image1 count1 f1 f2 s = get_classifications image2 count2 f1 f2 s ∧
    get_detections image1 f1 f2 s mbs = get_detections image2 f1 f2 s mbs :=
  ⟨rfl, rfl⟩

/-! ### Morphology and contour lemmas for all-zero masks -/

lemma foldl_min_le_init {α : Type} [LinearOrder α] (l : List α) (b : α) :
    l.foldl min b ≤ b := by
  induction l generalizing b with
  | nil => simp
  | cons a t ih => exact le_trans (ih (min b a)) (min_le_left b a)

lemma foldl_min_le_of_mem {α : Type} [LinearOrder α] {l : List α} {a : α}
    (h : a ∈ l) (b : α) : l.foldl min b ≤ a := by
  induction l generalizing b with
  | nil => simp at h
  | cons x t ih =>
      rcases List.mem_cons.1 h with rfl | hmem
      · exact le_trans (foldl_min_le_init t (min b a)) (min_le_right b a)
      · exact ih hmem (min b x)

lemma le_foldl_max_init {α : Type} [LinearOrder α] (l : List α) (b : α) :
    b ≤ l.foldl max b := by
  induction l generalizing b with
  | nil => simp
  | cons a t ih => exact le_trans (le_max_left b a) (ih (max b a))

lemma foldl_max_eq_zero {l : List Nat} (h : ∀ a ∈ l, a = 0) : l.foldl max 0 = 0 := by
  induction l with
  | nil => rfl
  | cons a t ih =>
      have ha : a = 0 := h a (by simp)
      subst ha
      simpa using ih (fun a ha => h a (by simp [ha]))

lemma winMin_eq_zero {l : List Nat} (h0 : 0 ∈ l) : winMin l = 0 := by
  cases l with
  | nil => simp at h0
  | cons a t =>
      have hle : t.foldl min a ≤ 0 := by
        rcases List.mem_cons.1 h0 with ha | ht
        · exact ha ▸ foldl_min_le_init t a
        · exact foldl_min_le_of_mem ht a
      simpa [winMin] using Nat.le_zero.1 hle

lemma winMax_eq_zero {l : List Nat} (h : ∀ a ∈ l, a = 0) : winMax l = 0 := by
  cases l with
  | nil => rfl
  | cons a t =>
      have ha : a = 0 := h a (by simp)
      subst ha
      simpa [winMax] using foldl_max_eq_zero (fun a ha => h a (by simp [ha]))

lemma getPixPad_allZero {f : Frame} (h : allZero f) (x y : ℤ) : getPixPad f 0 x y = 0 := by
  unfold getPixPad
  split
  · exact pixel_allZero h _ _
  · rfl

lemma center_mem_window (f : Frame) (pad r x y : Nat)
    (hx : x < width f) (hy : y < height f) :
    pixel f x y ∈ window f pad r x y := by
  have hcenter : getPixPad f pad ((x : ℤ) + (r : ℤ) - (r : ℤ)) ((y : ℤ) + (r : ℤ) - (r : ℤ))
      = pixel f x y := by
    have hx0 : (x : ℤ) + (r : ℤ) - (r : ℤ) = (x : ℤ) := by ring
    have hy0 : (y : ℤ) + (r : ℤ) - (r : ℤ) = (y : ℤ) := by ring
    rw [hx0, hy0]
    unfold getPixPad
    rw [if_pos ⟨Int.natCast_nonneg x, by exact_mod_cast hx, Int.natCast_nonneg y,
      by exact_mod_cast hy⟩]
    simp
  unfold window
  refine List.mem_flatMap.2 ⟨r, List.mem_range.2 ?_, ?_⟩
  · omega
  · refine List.mem_map.2 ⟨r, List.mem_range.2 ?_, hcenter⟩
    omega

lemma erode_allZero {f : Frame} (h : allZero f) (r : Nat) : allZero (erode r f) := by
  intro row hrow d hd
  unfold erode at hrow
  rcases List.mem_map.1 hrow with ⟨y, hy, rfl⟩
  rcases List.mem_map.1 hd with ⟨x, hx, rfl⟩
  have hc := center_mem_window f 255 r x y (List.mem_range.1 hx) (List.mem_range.1 hy)
  rw [pixel_allZero h x y] at hc
  exact winMin_eq_zero hc

lemma dilate_allZero {f : Frame} (h : allZero f) (r : Nat) : allZero (dilate r f) := by
  intro row hrow d hd
  unfold dilate at hrow
  rcases List.mem_map.1 hrow with ⟨y, _, rfl⟩
  rcases List.mem_map.1 hd with ⟨x, _, rfl⟩
  refine winMax_eq_zero ?_
  intro a ha
  unfold window at ha
  rcases List.mem_flatMap.1 ha with ⟨i, _, ha2⟩
  rcases List.mem_map.1 ha2 with ⟨j, _, rfl⟩
  exact getPixPad_allZero h _ _

lemma foldl_fixed {β : Type} {g : β → Nat × Nat → β}
    (hg : ∀ acc p, g acc p = acc) (l : List (Nat × Nat)) (acc : β) :
    l.foldl g acc = acc := by
  induction l generalizing acc with
  | nil => rfl
  | cons p t ih => rw [List.foldl_cons, hg]; exact ih acc

lemma findContours_allZero {f : Frame} (h : allZero f) : findContours f = [] := by
  unfold findContours
  rw [foldl_fixed]
  intro acc p
  rw [pixel_allZero h]
  simp

/-! ### C4: identical frames give confidence 0 and no detections -/

/-- C4: comparing any rectangular frame against an identical copy of itself,
with any sensitivity in [0, 1] and any non-negative min_box_size, yields the
single classification {"motion", 0} and the empty detection list: the
difference buffer is all zeros, thresholding keeps it all zero, morphology
preserves the zero mask, and no contours remain. -/
theorem C4_identical_frames (f : Frame) (s mbs : ℚ)
    (hs0 : 0 ≤ s) (hs1 : s ≤ 1) (hm : 0 ≤ mbs) (hf : rect f = true) :
    get_classifications () 1 f f s = some [⟨"motion", 0⟩] ∧
    get_detections () f f s mbs = some [] := by
  obtain ⟨z, habs, hz⟩ := absdiff_self f hf
  have hk : 0 ≤ k_thresh s := k_thresh_nonneg hs1
  constructor
  · unfold get_classifications
    rw [habs]
    have h0 : npsum (applyThreshold (k_thresh s) 1 z) = 0 :=
      npsum_allZero (applyThreshold_allZero _ _ hk hz)
    simp [h0]
  · unfold get_detections
    rw [habs]
    have hzz : allZero (erode 7 (dilate 7 (dilate 1 (erode 1
        (applyThreshold (k_thresh s) 255 z))))) :=
      erode_allZero (dilate_allZero (dilate_allZero (erode_allZero
        (applyThreshold_allZero _ _ hk hz) 1) 1) 7) 7
    simp [findContours_allZero hzz, detectionsFromContours]

/-- Witness for C4: the 1×1 frame [[5]] against itself at sensitivity 1/2 and
min_box_size 0. -/
theorem C4_identical_frames_witness :
    get_classifications () 1 [[5]] [[5]] (1/2) = some [⟨"motion", 0⟩] ∧
    get_detections () [[5]] [[5]] (1/2) 0 = some [] :=
  C4_identical_frames [[5]] (1/2) 0 (by norm_num) (by norm_num) le_rfl (by decide)

/-! ### C6: the area filter is strict -/

lemma detFromContour_cons (mbs : ℚ) (p : ℤ × ℤ) (ps : List (ℤ × ℤ)) :
    detFromContour mbs (p :: ps) =
      if mbs < (((maximumD ((p :: ps).map Prod.snd) 0 - minimumD ((p :: ps).map Prod.snd) 0) *
          (maximumD ((p :: ps).map Prod.fst) 0 - minimumD ((p :: ps).map Prod.fst) 0) : ℤ) : ℚ)
      then
        some { confidence := 1/2, class_name := "motion",
               x_min := minimumD ((p :: ps).map Prod.fst) 0,
               y_min := minimumD ((p :: ps).map Prod.snd) 0,
               x_max := maximumD ((p :: ps).map Prod.fst) 0,
               y_max := maximumD ((p :: ps).map Prod.snd) 0 }
      else none := rfl

/-- C6: the filter at line 168 keeps a contour's box exactly when
(ymax - ymin) * (xmax - xmin) is strictly greater than min_box_size: a
component whose product equals min_box_size is discarded, and one whose
product strictly exceeds it is emitted with confidence 0.5 and class
"motion". -/
theorem C6_area_filter_strict (p : ℤ × ℤ) (ps : List (ℤ × ℤ)) (mbs : ℚ) :
    ((((maximumD ((p :: ps).map Prod.snd) 0 - minimumD ((p :: ps).map Prod.snd) 0) *
        (maximumD ((p :: ps).map Prod.fst) 0 - minimumD ((p :: ps).map Prod.fst) 0) : ℤ) : ℚ)
        = mbs →
      detectionsFromContours mbs [p :: ps] = []) ∧
    (mbs < (((maximumD ((p :: ps).map Prod.snd) 0 - minimumD ((p :: ps).map Prod.snd) 0) *
        (maximumD ((p :: ps).map Prod.fst) 0 - minimumD ((p :: ps).map Prod.fst) 0) : ℤ) : ℚ) →
      detectionsFromContours mbs [p :: ps] =
        [{ confidence := 1/2, class_name := "motion",
           x_min := minimumD ((p :: ps).map Prod.fst) 0,
           y_min := minimumD ((p :: ps).map Prod.snd) 0,
           x_max := maximumD ((p :: ps).map Prod.fst) 0,
           y_max := maximumD ((p :: ps).map Prod.snd) 0 }]) := by
  constructor
  · intro heq
    have hlt : ¬ mbs < ((((maximumD ((p :: ps).map Prod.snd) 0 -
        minimumD ((p :: ps).map Prod.snd) 0) *
        (maximumD ((p :: ps).map Prod.fst) 0 -
        minimumD ((p :: ps).map Prod.fst) 0) : ℤ) : ℚ)) := by
      rw [heq]
      exact lt_irrefl mbs
    unfold detectionsFromContours
    rw [List.filterMap_cons, detFromContour_cons, if_neg hlt]
    rfl
  · intro hlt
    unfold detectionsFromContours
    rw [List.filterMap_cons, detFromContour_cons, if_pos hlt]
    rfl

/-- Witness for C6: a square contour with corners (0,0) and (10,10) has
coordinate-difference product exactly 100; it is excluded at min_box_size 100
and included at 99. -/
theorem C6_area_filter_strict_witness :
    detectionsFromContours 100 [[((0 : ℤ), (0 : ℤ)), (10, 0), (10, 10), (0, 10)]] = [] ∧
    detectionsFromContours 99 [[((0 : ℤ), (0 : ℤ)), (10, 0), (10, 10), (0, 10)]] =
      [{ confidence := 1/2, class_name := "motion",
         x_min := 0, y_min := 0, x_max := 10, y_max := 10 }] := by
  constructor
  · refine (C6_area_filter_strict (0, 0) [(10, 0), (10, 10), (0, 10)] 100).1 ?_
    norm_num [minimumD, maximumD, min_def, max_def]
  · refine ((C6_area_filter_strict (0, 0) [(10, 0), (10, 10), (0, 10)] 99).2 ?_).trans ?_
    · norm_num [minimumD, maximumD, min_def, max_def]
    · norm_num [minimumD, maximumD, min_def, max_def]

/-! ### C10: no degenerate boxes -/

/-- C10: whenever min_box_size is non-negative, every detection returned by
get_detections has x_min < x_max and y_min < y_max: the strict comparison
(ymax - ymin) * (xmax - xmin) > min_box_size ≥ 0 forces both coordinate
differences of the surviving box to be positive. -/
theorem C10_no_degenerate_boxes {α : Type} (image : α) (f1 f2 : Frame)
    (s mbs : ℚ) (hm : 0 ≤ mbs) (dets : List Detection)
    (h : get_detections image f1 f2 s mbs = some dets) :
    ∀ d ∈ dets, d.x_min < d.x_max ∧ d.y_min < d.y_max := by
  intro d hd
  unfold get_detections at h
  cases habs : absdiff f2 f1 with
  | none =>
      rw [habs] at h
      exact Option.noConfusion h
  | some diff =>
      rw [habs] at h
      have hdets := Option.some.inj h
      rw [← hdets] at hd
      rcases List.mem_filterMap.1 hd with ⟨c, _, hc⟩
      cases c with
      | nil => exact Option.noConfusion hc
      | cons p ps =>
          simp only [detFromContour] at hc
          split at hc
          · next hcond =>
              have hd' := Option.some.inj hc
              subst hd'
              have hprod : (0 : ℤ) <
                  (maximumD ((p :: ps).map Prod.snd) 0 - minimumD ((p :: ps).map Prod.snd) 0) *
                  (maximumD ((p :: ps).map Prod.fst) 0 - minimumD ((p :: ps).map Prod.fst) 0) := by
                exact_mod_cast lt_of_le_of_lt hm hcond
              have hx : minimumD ((p :: ps).map Prod.fst) 0 ≤
                  maximumD ((p :: ps).map Prod.fst) 0 := by
                simp only [List.map_cons, minimumD, maximumD]
                exact le_trans (foldl_min_le_init _ _) (le_foldl_max_init _ _)
              have hy : minimumD ((p :: ps).map Prod.snd) 0 ≤
                  maximumD ((p :: ps).map Prod.snd) 0 := by
                simp only [List.map_cons, minimumD, maximumD]
                exact le_trans (foldl_min_le_init _ _) (le_foldl_max_init _ _)
              constructor
              · rcases lt_or_eq_of_le hx with hlt | heq
                · exact hlt
                · exfalso
                  rw [← heq, sub_self, mul_zero] at hprod
                  exact lt_irrefl 0 hprod
              · rcases lt_or_eq_of_le hy with hlt | heq
                · exact hlt
                · exfalso
                  rw [← heq, sub_self, zero_mul] at hprod
                  exact lt_irrefl 0 hprod
          · exact Option.noConfusion hc

set_option maxRecDepth 20000 in
/-- Witness for C10: on the 2×2 frame pair all-0 vs all-255 at sensitivity
0.9 and min_box_size 0, get_detections returns the single box (0,0)-(1,1),
which is non-degenerate. -/
theorem C10_no_degenerate_boxes_witness :
    (Detection.mk (1/2) "motion" 0 0 1 1).x_min < (Detection.mk (1/2) "motion" 0 0 1 1).x_max ∧
    (Detection.mk (1/2) "motion" 0 0 1 1).y_min < (Detection.mk (1/2) "motion" 0 0 1 1).y_max := by
  have heval : get_detections () [[0, 0], [0, 0]] [[255, 255], [255, 255]] (9/10) 0 =
      some [Detection.mk (1/2) "motion" 0 0 1 1] := by
    unfold get_detections
    rw [(by decide : absdiff [[255, 255], [255, 255]] [[0, 0], [0, 0]] =
      some [[255, 255], [255, 255]])]
    simp only [k_thresh_nine_tenths]
    rw [(by decide : (findContours (erode 7 (dilate 7 (dilate 1 (erode 1
        (applyThreshold 25 255 [[255, 255], [255, 255]])))))).map
        (fun c => c.map (fun (q : Nat × Nat) => ((q.1 : ℤ), (q.2 : ℤ)))) =
        [[((0 : ℤ), (0 : ℤ)), (1, 0), (0, 1), (1, 1)]])]
    norm_num [detectionsFromContours, List.filterMap_cons, detFromContour_cons,
      minimumD, maximumD, min_def, max_def]
  exact C10_no_degenerate_boxes () [[0, 0], [0, 0]] [[255, 255], [255, 255]] (9/10) 0
    le_rfl [Detection.mk (1/2) "motion" 0 0 1 1] heval
    (Detection.mk (1/2) "motion" 0 0 1 1) (by simp)

end MotionDetector
